import Mathlib

/-
Verification of the command-construction and lifecycle logic of the
helm-deploy action (src/action.py), shallowly embedded in Lean.

Python `str`-or-`None` values are embedded as `Option String`; Python
truthiness of such values is `truthy`.  The effectful parts of the
program (printing, `sys.exit`, file writes/removals, subprocess
launches) are embedded as explicit effect traces over an abstract
`World` supplying the behaviour of the external collaborators (the
helm binary's exit codes, whether launching it raises, and the
`KUBECFGB64` environment variable).
-/

namespace HelmDeploy

/-- Python optional string (a `str` value or `None`). -/
abbrev PyStr := Option String

/-- Python truthiness of a string-or-None value: `None` and `""` are falsy. -/
def truthy : PyStr → Bool
  | none => false
  | some s => !(s == "")

/-- Extract the string from a truthy value (used only under a truthiness guard). -/
def pyGet : PyStr → String
  | none => ""
  | some s => s

/-- Python `str(x)` / f-string interpolation of a string-or-None value. -/
def pyFStr : PyStr → String
  | none => "None"
  | some s => s

/-- Python `a or b` on string-or-None values. -/
def pyOr (a b : PyStr) : PyStr := if truthy a then a else b

/-- The configuration mapping built by `load_inputs` (src/action.py:16):
one entry per `GHINPUT_*` environment variable, absent variables mapping
to `None`. -/
structure Specs where
  atomic : PyStr
  chart_version : PyStr
  chart : PyStr
  dry_run : PyStr
  helm_version : PyStr
  mode : PyStr
  namespc : PyStr
  release : PyStr
  repo_name : PyStr
  repo : PyStr
  timeout : PyStr
  values_files : PyStr
  values : PyStr
deriving DecidableEq

/-- A configuration with every input absent. -/
def defSpecs : Specs :=
  ⟨none, none, none, none, none, none, none, none, none, none, none, none, none⟩

/-- A filesystem path, split as (directory, filename): the program only
ever writes fixed filenames inside the temporary working directory. -/
abbrev FsPath := String × String

/-- str() rendering of a path. -/
def pathStr (p : FsPath) : String := p.1 ++ "/" ++ p.2

/-- Observable effects of a run: diagnostics, process exit, file writes
and removals, subprocess launches, temporary-directory creation. -/
inductive Eff where
  | print (msg : String)
  | exit (code : Int)
  | writeFile (path : FsPath)
  | unlink (path : FsPath)
  | spawn (cmd : String) (params : List PyStr)
  | mkdtemp
deriving DecidableEq

/-- How a run terminates: `sys.exit(code)` or an uncaught exception. -/
inductive Ctl where
  | exited (code : Int)
  | raised
deriving DecidableEq

/-- Behaviour of the external collaborators of one invocation. -/
structure World where
  helmExit : String → List PyStr → Int
  helmRaises : String → List PyStr → Bool
  kubecfgb64 : String
  tmpdir : String

/- ------------------------------------------------------------------ -/
/- Pure helpers: splitlines, values-file list, chart resolution        -/
/- ------------------------------------------------------------------ -/

/-- Python `str.splitlines` restricted to the line boundaries `\r\n`,
`\r` and `\n`: splits at each boundary and produces no trailing empty
line for a trailing boundary. -/
def pySplitlinesAux : List Char → List Char → List String
  | [], acc => if acc = [] then [] else [String.mk acc.reverse]
  | '\r' :: '\n' :: rest, acc => String.mk acc.reverse :: pySplitlinesAux rest []
  | '\r' :: rest, acc => String.mk acc.reverse :: pySplitlinesAux rest []
  | '\n' :: rest, acc => String.mk acc.reverse :: pySplitlinesAux rest []
  | c :: rest, acc => pySplitlinesAux rest (c :: acc)

/-- Python `s.splitlines()`. -/
def pySplitlines (s : String) : List String := pySplitlinesAux s.data []

/-- `load_values_files` (src/action.py:51): split the `values-files`
input into lines and drop falsy (empty) lines; absent input yields `[]`. -/
def load_values_files (specs : Specs) : List String :=
  if truthy specs.values_files = false then []
  else (pySplitlines (pyGet specs.values_files)).filter (fun l => !(l == ""))

/-- `load_chart` (src/action.py:72): the chart reference is used as-is
unless a repository is configured without an explicit repository name,
in which case it is rewritten to `charts/<chart>`. -/
def load_chart (specs : Specs) : PyStr :=
  if !(truthy specs.repo) || (truthy specs.repo && truthy specs.repo_name)
  then specs.chart
  else some ("charts/" ++ pyFStr specs.chart)

/-- The path returned by a successful `load_values`: the fixed filename
`values.yaml` inside the working directory when `values` is truthy,
`None` otherwise. -/
def values_target (wrkdir : String) (specs : Specs) : Option FsPath :=
  if truthy specs.values then some (wrkdir, "values.yaml") else none

/- ------------------------------------------------------------------ -/
/- Argument vectors of the four operations                             -/
/- ------------------------------------------------------------------ -/

/-- The `-f` argument pairs for the resolved values files. -/
def valuesFileArgs (specs : Specs) : List PyStr :=
  (load_values_files specs).flatMap (fun vf => [some "-f", some vf])

/-- The `-f` argument pair for the inline values file, when present. -/
def valuesTargetArgs (wrkdir : String) (specs : Specs) : List PyStr :=
  match values_target wrkdir specs with
  | some t => [some "-f", some (pathStr t)]
  | none => []

/-- Argument vector assembled by `helm_install` (src/action.py:127). -/
def helm_install_params (wrkdir : String) (specs : Specs) : List PyStr :=
  [specs.release, load_chart specs, some "--namespace", specs.namespc]
  ++ (if specs.atomic = some "true" then [some "--atomic"] else [])
  ++ (if specs.dry_run = some "true" then [some "--dry-run"] else [])
  ++ valuesFileArgs specs
  ++ valuesTargetArgs wrkdir specs
  ++ (if truthy specs.chart_version then [some "--version", specs.chart_version] else [])
  ++ (if truthy specs.timeout then [some "--timeout", specs.timeout] else [])

/-- Argument vector assembled by `helm_upgrade` (src/action.py:153). -/
def helm_upgrade_params (wrkdir : String) (specs : Specs) : List PyStr :=
  [specs.release, load_chart specs, some "--install", some "--namespace", specs.namespc]
  ++ (if specs.atomic = some "true" then [some "--atomic"] else [])
  ++ (if specs.dry_run = some "true" then [some "--dry-run"] else [])
  ++ valuesFileArgs specs
  ++ valuesTargetArgs wrkdir specs
  ++ (if truthy specs.chart_version then [some "--version", specs.chart_version] else [])
  ++ (if truthy specs.timeout then [some "--timeout", specs.timeout] else [])

/-- Argument vector assembled by `helm_template` (src/action.py:180). -/
def helm_template_params (wrkdir : String) (specs : Specs) : List PyStr :=
  [specs.release, load_chart specs, some "--namespace", specs.namespc]
  ++ valuesFileArgs specs
  ++ valuesTargetArgs wrkdir specs
  ++ (if truthy specs.chart_version then [some "--version", specs.chart_version] else [])

/-- Argument vector assembled by `helm_uninstall` (src/action.py:200). -/
def helm_uninstall_params (specs : Specs) : List PyStr :=
  [specs.release, some "--namespace", specs.namespc]

/- ------------------------------------------------------------------ -/
/- base64 decoding (the library collaborator used by load_kubeconfig)  -/
/- ------------------------------------------------------------------ -/

/-- Value of a base64 alphabet character (`table_a2b_base64` in CPython
binascii), `none` for characters outside the alphabet. -/
def b64Val (c : Char) : Option Nat :=
  if 'A' ≤ c ∧ c ≤ 'Z' then some (c.toNat - 'A'.toNat)
  else if 'a' ≤ c ∧ c ≤ 'z' then some (c.toNat - 'a'.toNat + 26)
  else if '0' ≤ c ∧ c ≤ '9' then some (c.toNat - '0'.toNat + 52)
  else if c = '+' then some 62
  else if c = '/' then some 63
  else none

/-- CPython `binascii.a2b_base64` in non-strict mode (the default used
by `base64.b64decode`): characters outside the alphabet are skipped, a
completing pad sequence ends the decode, and a leftover quad position at
the end of input is a padding error.  State: current quad position,
leftover bits, consecutive pad count, output bytes (reversed). -/
def a2b_base64 : List Char → Nat → Nat → Nat → List Nat → Except String (List Nat)
  | [], quadPos, _, _, out =>
      if quadPos = 0 then .ok out.reverse
      else if quadPos = 1 then .error "Invalid base64-encoded string"
      else .error "Incorrect padding"
  | c :: rest, quadPos, leftchar, pads, out =>
      if c = '=' then
        if 2 ≤ quadPos ∧ 4 ≤ quadPos + (pads + 1) then .ok out.reverse
        else a2b_base64 rest quadPos leftchar (if 2 ≤ quadPos then pads + 1 else pads) out
      else
        match b64Val c with
        | none => a2b_base64 rest quadPos leftchar pads out
        | some v =>
            if quadPos = 0 then a2b_base64 rest 1 v 0 out
            else if quadPos = 1 then
              a2b_base64 rest 2 (v % 16) 0 ((leftchar * 4 + v / 16) :: out)
            else if quadPos = 2 then
              a2b_base64 rest 3 (v % 4) 0 ((leftchar * 16 + v / 4) :: out)
            else a2b_base64 rest 0 0 0 ((leftchar * 64 + v) :: out)

/-- CPython `base64.b64decode` on a `str` argument with the default
`validate=False`: the string is first ASCII-encoded (non-ASCII input
raises ValueError), then decoded by non-strict `a2b_base64`. -/
def b64decode (s : String) : Except String (List Nat) :=
  if s.data.any (fun c => 128 ≤ c.toNat) then
    .error "string argument should contain only ASCII characters"
  else a2b_base64 s.data 0 0 0 []

/-- Characters retained by non-strict `a2b_base64`: the base64 alphabet
and the pad character. -/
def b64keep (c : Char) : Bool := (b64Val c).isSome || c = '='

/-- A credential string with all characters outside the alphabet and pad
removed. -/
def b64clean (s : String) : String := String.mk (s.data.filter b64keep)

/-- Whether decoding raises. -/
def b64decodeFails (s : String) : Bool :=
  match b64decode s with
  | .error _ => true
  | .ok _ => false

/- ------------------------------------------------------------------ -/
/- Effect-trace semantics of the program                               -/
/- ------------------------------------------------------------------ -/

/-- The call `ymlload(specs["values"])` in `load_values`
(src/action.py:42).  `yaml.safe_load_all` is a generator function:
calling it merely creates a lazy generator and performs no parsing, so
for every input the call returns normally and never raises. -/
def ymlload (_s : String) : Except String Unit := .ok ()

/-- `load_values` (src/action.py:37): effect trace and result.  The
`except` branch mirrors the source's `try/except` around `ymlload`;
since `ymlload` never raises, that branch is unreachable. -/
def load_values_run (wrkdir : String) (specs : Specs) :
    List Eff × Except Int (Option FsPath) :=
  if truthy specs.values = false then ([], .ok none)
  else
    match ymlload (pyGet specs.values) with
    | .error _ => ([.print "Unable to parse `values`.", .exit 1], .error 1)
    | .ok _ =>
        ([.writeFile (wrkdir, "values.yaml")], .ok (some (wrkdir, "values.yaml")))

/-- `run_helm` (src/action.py:99): spawns the helm subprocess and either
returns its exit code or raises (e.g. when the binary cannot be
launched). -/
def run_helm (w : World) (cmd : String) (params : List PyStr) :
    List Eff × Except Unit Int :=
  ([.spawn cmd params],
   if w.helmRaises cmd params then .error () else .ok (w.helmExit cmd params))

/-- The `load_repo` decorator body (src/action.py:57): when a repository
is configured, run `helm repo add --force-update` and `helm repo update`
before the wrapped operation, ignoring their exit codes; an exception
from either launch propagates. -/
def repo_run (w : World) (specs : Specs) : List Eff × Except Unit Unit :=
  if truthy specs.repo then
    let s1 := run_helm w "repo add --force-update"
      [pyOr specs.repo_name (some "charts"), specs.repo]
    match s1.2 with
    | .error _ => (s1.1, .error ())
    | .ok _ =>
        let s2 := run_helm w "repo update" []
        match s2.2 with
        | .error _ => (s1.1 ++ s2.1, .error ())
        | .ok _ => (s1.1 ++ s2.1, .ok ())
  else ([], .ok ())

/-- `wrap_helm` (src/action.py:115) together with the `load_kubeconfig`
context manager (src/action.py:80), at the default `exit=True` used by
every caller: decode `KUBECFGB64` (decode failure prints a diagnostic
and exits 1), write the credential file, run helm, and unlink the
credential file.  `load_kubeconfig` has no try/finally around its
`yield`, so when the helm run raises, the `unlink` after the yield never
executes and the exception propagates. -/
def wrap_helm_run (w : World) (wrkdir : String) (cmd : String) (params : List PyStr) :
    List Eff × Ctl :=
  match b64decode w.kubecfgb64 with
  | .error _ => ([.print "Bad kubeconfig", .exit 1], .exited 1)
  | .ok _ =>
      let dst : FsPath := (wrkdir, ".kube_config.yml")
      let s := run_helm w cmd params
      match s.2 with
      | .error _ => (.writeFile dst :: s.1, .raised)
      | .ok ret => ((.writeFile dst :: s.1) ++ [.unlink dst, .exit ret], .exited ret)

/-- `helm_install` (src/action.py:122): repo registration, inline-values
materialization, argument assembly, credential-scoped helm run. -/
def helm_install_run (w : World) (wrkdir : String) (specs : Specs) : List Eff × Ctl :=
  let r := repo_run w specs
  match r.2 with
  | .error _ => (r.1, .raised)
  | .ok _ =>
      let v := load_values_run wrkdir specs
      match v.2 with
      | .error code => (r.1 ++ v.1, .exited code)
      | .ok _ =>
          let h := wrap_helm_run w wrkdir "install" (helm_install_params wrkdir specs)
          (r.1 ++ v.1 ++ h.1, h.2)

/-- `helm_upgrade` (src/action.py:148). -/
def helm_upgrade_run (w : World) (wrkdir : String) (specs : Specs) : List Eff × Ctl :=
  let r := repo_run w specs
  match r.2 with
  | .error _ => (r.1, .raised)
  | .ok _ =>
      let v := load_values_run wrkdir specs
      match v.2 with
      | .error code => (r.1 ++ v.1, .exited code)
      | .ok _ =>
          let h := wrap_helm_run w wrkdir "upgrade" (helm_upgrade_params wrkdir specs)
          (r.1 ++ v.1 ++ h.1, h.2)

/-- `helm_template` (src/action.py:175): like install but runs helm
without the credential scope and exits directly with its code. -/
def helm_template_run (w : World) (wrkdir : String) (specs : Specs) : List Eff × Ctl :=
  let r := repo_run w specs
  match r.2 with
  | .error _ => (r.1, .raised)
  | .ok _ =>
      let v := load_values_run wrkdir specs
      match v.2 with
      | .error code => (r.1 ++ v.1, .exited code)
      | .ok _ =>
          let h := run_helm w "template" (helm_template_params wrkdir specs)
          match h.2 with
          | .error _ => (r.1 ++ v.1 ++ h.1, .raised)
          | .ok ret => (r.1 ++ v.1 ++ h.1 ++ [.exit ret], .exited ret)

/-- `helm_uninstall` (src/action.py:196): only the credential-scoped
helm run, with release and namespace arguments. -/
def helm_uninstall_run (w : World) (wrkdir : String) (specs : Specs) : List Eff × Ctl :=
  wrap_helm_run w wrkdir "uninstall" (helm_uninstall_params specs)

/-- The four operations. -/
inductive Op where
  | install
  | upgrade
  | uninstall
  | template
deriving DecidableEq

/-- The dictionary lookup in `run` (src/action.py:210): exact string
match of `mode` against the four operation names. -/
def dispatch (mode : PyStr) : Option Op :=
  if mode = some "install" then some .install
  else if mode = some "upgrade" then some .upgrade
  else if mode = some "uninstall" then some .uninstall
  else if mode = some "template" then some .template
  else none

/-- Run the selected operation in the given working directory. -/
def op_run (w : World) (op : Op) (wrkdir : String) (specs : Specs) : List Eff × Ctl :=
  match op with
  | .install => helm_install_run w wrkdir specs
  | .upgrade => helm_upgrade_run w wrkdir specs
  | .uninstall => helm_uninstall_run w wrkdir specs
  | .template => helm_template_run w wrkdir specs

/-- `run` (src/action.py:208): dispatch on `mode`; unknown or absent
mode prints a diagnostic and exits 1; otherwise the temporary working
directory is created and the operation runs in it. -/
def run_run (w : World) (specs : Specs) : List Eff × Ctl :=
  match dispatch specs.mode with
  | none => ([.print "Unknown `mode` specified.", .exit 1], .exited 1)
  | some op =>
      let t := op_run w op w.tmpdir specs
      (.mkdtemp :: t.1, t.2)

/- ------------------------------------------------------------------ -/
/- Filesystem state after a trace                                      -/
/- ------------------------------------------------------------------ -/

/-- One trace step of the file-existence observer for a fixed path. -/
def effStep (p : FsPath) (acc : Bool) (e : Eff) : Bool :=
  match e with
  | .writeFile q => if q = p then true else acc
  | .unlink q => if q = p then false else acc
  | _ => acc

/-- Whether the file at `p` (absent before the run) exists after the
trace. -/
def fileExistsAfter (p : FsPath) (t : List Eff) : Bool :=
  t.foldl (effStep p) false

/- ------------------------------------------------------------------ -/
/- Concrete worlds and configurations used in witnesses                -/
/- ------------------------------------------------------------------ -/

/-- A benign environment: helm never raises, always exits 0. -/
def wBenign : World :=
  { helmExit := fun _ _ => 0, helmRaises := fun _ _ => false,
    kubecfgb64 := "", tmpdir := "/tmp/wd" }

/-- An environment where launching helm raises (e.g. missing binary). -/
def wRaise : World :=
  { helmExit := fun _ _ => 0, helmRaises := fun _ _ => true,
    kubecfgb64 := "", tmpdir := "/t" }

/-- An environment whose KUBECFGB64 value contains a non-ASCII character. -/
def wBadCfg : World :=
  { helmExit := fun _ _ => 0, helmRaises := fun _ _ => false,
    kubecfgb64 := "aGk=é", tmpdir := "/t" }

/-- mode=uninstall, release=r1, namespace=ns1, everything else absent. -/
def cfgUninstall : Specs :=
  { defSpecs with mode := some "uninstall", release := some "r1", namespc := some "ns1" }

/-- An install configuration with a timeout and no atomic/dry-run flags. -/
def cfgTimeout : Specs :=
  { defSpecs with
    mode := some "install"
    release := some "r"
    chart := some "c"
    namespc := some "n"
    timeout := some "30s" }

/-- An install configuration whose release input is absent. -/
def cfgNoRelease : Specs :=
  { defSpecs with mode := some "install", chart := some "c", namespc := some "n" }

/-- A full install configuration with every mandatory field present. -/
def cfgFull : Specs :=
  { defSpecs with
    mode := some "install"
    release := some "r"
    chart := some "c"
    namespc := some "n"
    atomic := some "true"
    chart_version := some "1.2.3"
    timeout := some "30s"
    values := some "a: 1"
    values_files := some "x.yml\ny.yml" }

/-- A configuration with a repository and no repository name. -/
def cfgRepo : Specs :=
  { defSpecs with chart := some "X", repo := some "https://charts.example.com" }

/-- A configuration whose values input is syntactically invalid YAML. -/
def cfgBadValues : Specs :=
  { defSpecs with mode := some "install", values := some "\x7b" }

/-- A configuration with an unknown mode. -/
def cfgBadMode : Specs := { defSpecs with mode := some "deploy" }

/- ------------------------------------------------------------------ -/
/- C2: template arguments versus install arguments                     -/
/- ------------------------------------------------------------------ -/

/-- C2 counterexample: with a timeout configured and no atomic/dry-run
flags, the install vector contains a `--timeout` pair that the template
vector lacks; since the install vector contains neither `--atomic` nor
`--dry-run`, removing those flags changes nothing, so the claimed
equality "template = install minus atomic/dry-run" fails. -/
theorem c2_counterexample :
    (helm_template_params "/w" cfgTimeout == helm_install_params "/w" cfgTimeout) = false ∧
    (helm_install_params "/w" cfgTimeout).contains (some "--atomic") = false ∧
    (helm_install_params "/w" cfgTimeout).contains (some "--dry-run") = false ∧
    (helm_install_params "/w" cfgTimeout).contains (some "--timeout") = true ∧
    (helm_template_params "/w" cfgTimeout).contains (some "--timeout") = false := by
  decide

/-- C2 (amended): for every configuration, the template argument vector
equals the install argument vector for the same configuration with
atomic, dry-run and timeout cleared — i.e. install minus the `--atomic`
and `--dry-run` flags and minus the `--timeout` pair; all other
elements are identical and in the same order. -/
theorem c2_template_args (wrkdir : String) (specs : Specs) :
    helm_template_params wrkdir specs =
      helm_install_params wrkdir
        { specs with atomic := none, dry_run := none, timeout := none } := by
  simp [helm_template_params, helm_install_params, load_chart, valuesFileArgs,
    valuesTargetArgs, values_target, load_values_files, truthy]

/- ------------------------------------------------------------------ -/
/- C4: chart reference resolution                                      -/
/- ------------------------------------------------------------------ -/

/-- C4: the chart resolver returns the chart value unchanged when no
repository is configured, and when a repository is configured together
with an explicit repository name; it prefixes the chart value with
`charts/` exactly when a repository is configured without a repository
name. -/
theorem c4_load_chart (specs : Specs) (c : String) (hc : specs.chart = some c) :
    (truthy specs.repo = false → load_chart specs = some c) ∧
    (truthy specs.repo = true → truthy specs.repo_name = true → load_chart specs = some c) ∧
    (truthy specs.repo = true → truthy specs.repo_name = false →
      load_chart specs = some ("charts/" ++ c)) := by
  refine ⟨fun h1 => ?_, fun h1 h2 => ?_, fun h1 h2 => ?_⟩
  · simp [load_chart, pyFStr, hc, h1]
  · simp [load_chart, pyFStr, hc, h1, h2]
  · simp [load_chart, pyFStr, hc, h1, h2]

/-- C4 witness: with repo configured and no repo-name, chart `X` is
rewritten to `charts/X`. -/
theorem c4_witness : load_chart cfgRepo = some "charts/X" :=
  (c4_load_chart cfgRepo "X" rfl).2.2 (by decide) (by decide)

/- ------------------------------------------------------------------ -/
/- C5: the inline-values validation gate                               -/
/- ------------------------------------------------------------------ -/

/-- `load_values` never takes its error branch: `yaml.safe_load_all` is
lazy, so the guarded call returns for every input. -/
theorem load_values_run_snd (wrkdir : String) (specs : Specs) :
    (load_values_run wrkdir specs).2 = Except.ok (values_target wrkdir specs) := by
  by_cases h : truthy specs.values
  · simp [load_values_run, values_target, ymlload, h]
  · simp at h
    simp [load_values_run, values_target, ymlload, h]

/-- C5: the claimed fail-fast gate is dead code.  `yaml.safe_load_all`
is a generator function, so `ymlload(specs["values"])` creates a lazy
generator without parsing anything and can never raise: for the
syntactically invalid values text (a lone opening flow-mapping
brace) the raw text is written to
`values.yaml` and the run proceeds — no diagnostic is printed and the
process does not exit; in general `load_values` succeeds on every
input. -/
theorem c5_values_gate_dead :
    load_values_run "/w" cfgBadValues =
      ([Eff.writeFile ("/w", "values.yaml")], Except.ok (some ("/w", "values.yaml"))) ∧
    ((load_values_run "/w" cfgBadValues).1.contains
      (Eff.print "Unable to parse `values`.")) = false ∧
    ((load_values_run "/w" cfgBadValues).1.contains (Eff.exit 1)) = false ∧
    ∀ (wrkdir : String) (specs : Specs),
      (load_values_run wrkdir specs).2 = Except.ok (values_target wrkdir specs) :=
  ⟨by rfl, by decide, by decide, load_values_run_snd⟩

/- ------------------------------------------------------------------ -/
/- C6: upgrade arguments versus install arguments                      -/
/- ------------------------------------------------------------------ -/

/-- C6: for every configuration, the upgrade argument vector equals the
install argument vector with an extra `--install` flag inserted
immediately after the chart reference (position 2, before
`--namespace`); everything else is identical and in the same order. -/
theorem c6_upgrade_args (wrkdir : String) (specs : Specs) :
    helm_upgrade_params wrkdir specs =
      (helm_install_params wrkdir specs).take 2 ++ some "--install" ::
        (helm_install_params wrkdir specs).drop 2 := by
  simp [helm_upgrade_params, helm_install_params]

/- ------------------------------------------------------------------ -/
/- C7: the values-files list resolver                                  -/
/- ------------------------------------------------------------------ -/

/-- C7: the resolver keeps the lines of the `values-files` input in
order (the result is a sublist of `splitlines`), drops exactly the
blank lines (every kept line is non-empty and every non-empty line is
kept), yields `[]` for an absent input, and maps `"a\n\nb\n"` to
`["a", "b"]`. -/
theorem c7_values_files :
    (∀ s : String,
      (load_values_files { defSpecs with values_files := some s }).Sublist (pySplitlines s) ∧
      ((load_values_files { defSpecs with values_files := some s }).all
        fun l => !(l == "")) = true ∧
      ((pySplitlines s).all fun l =>
        (l == "") || (load_values_files { defSpecs with values_files := some s }).contains l)
        = true) ∧
    load_values_files { defSpecs with values_files := none } = [] ∧
    load_values_files { defSpecs with values_files := some "a\n\nb\n" } = ["a", "b"] := by
  refine ⟨?_, rfl, by decide⟩
  intro s
  by_cases hs : s = ""
  · subst hs
    refine ⟨?_, rfl, rfl⟩
    simp [load_values_files, truthy, pySplitlines, pySplitlinesAux]
  · have ht : truthy (some s) = true := by simp [truthy, hs]
    have hlv : load_values_files { defSpecs with values_files := some s } =
        (pySplitlines s).filter (fun l => !(l == "")) := by
      simp [load_values_files, ht, pyGet]
    refine ⟨?_, ?_, ?_⟩
    · rw [hlv]; exact List.filter_sublist _
    · rw [hlv]
      simp only [List.all_eq_true]
      intro l hl
      exact (List.mem_filter.mp hl).2
    · simp only [List.all_eq_true]
      intro l hl
      by_cases hblank : l = ""
      · simp [hblank]
      · have hmem : l ∈ load_values_files { defSpecs with values_files := some s } := by
          rw [hlv]
          exact List.mem_filter.mpr ⟨hl, by simp [hblank]⟩
        simp only [Bool.or_eq_true, beq_iff_eq]
        exact Or.inr (List.elem_iff.mpr hmem)

/- ------------------------------------------------------------------ -/
/- C9: the uninstall argument vector                                   -/
/- ------------------------------------------------------------------ -/

/-- C9: for mode=uninstall with release r1 and namespace ns1, the
assembled arguments are exactly `["r1", "--namespace", "ns1"]` — no
chart reference and no values flags — and in every environment the
uninstall operation spawns only `helm uninstall`: no repository
registration (repo add / repo update) step runs. -/
theorem c9_uninstall_args :
    helm_uninstall_params cfgUninstall = [some "r1", some "--namespace", some "ns1"] ∧
    ∀ (w : World) (wrkdir : String),
      ((helm_uninstall_run w wrkdir cfgUninstall).1.all fun e =>
        match e with
        | .spawn c _ => c == "uninstall"
        | _ => true) = true := by
  refine ⟨rfl, ?_⟩
  intro w wrkdir
  unfold helm_uninstall_run wrap_helm_run run_helm
  cases hb : b64decode w.kubecfgb64 with
  | error e => simp
  | ok bs =>
      by_cases hr : w.helmRaises "uninstall" (helm_uninstall_params cfgUninstall) = true
      · simp [hr]
      · simp at hr
        simp [hr]

/- ------------------------------------------------------------------ -/
/- C8: unknown mode handling                                           -/
/- ------------------------------------------------------------------ -/

/-- C8: for every mode outside {install, upgrade, uninstall, template},
including an absent mode, `run` prints the fixed diagnostic and exits
with code 1; its trace contains no subprocess launch and no temporary
working directory creation (the `mkdtemp` happens only after a
successful mode lookup). -/
theorem c8_unknown_mode (w : World) (specs : Specs)
    (h1 : specs.mode ≠ some "install") (h2 : specs.mode ≠ some "upgrade")
    (h3 : specs.mode ≠ some "uninstall") (h4 : specs.mode ≠ some "template") :
    run_run w specs = ([.print "Unknown `mode` specified.", .exit 1], .exited 1) ∧
    ((run_run w specs).1.all fun e =>
      match e with
      | .spawn _ _ => false
      | .mkdtemp => false
      | _ => true) = true := by
  have hd : dispatch specs.mode = none := by
    simp [dispatch, h1, h2, h3, h4]
  constructor
  · simp [run_run, hd]
  · simp [run_run, hd]

/-- C8 witness: the unknown mode "deploy" in a benign environment. -/
theorem c8_witness :
    run_run wBenign cfgBadMode =
      ([.print "Unknown `mode` specified.", .exit 1], .exited 1) ∧
    ((run_run wBenign cfgBadMode).1.all fun e =>
      match e with
      | .spawn _ _ => false
      | .mkdtemp => false
      | _ => true) = true :=
  c8_unknown_mode wBenign cfgBadMode (by decide) (by decide) (by decide) (by decide)

/- ------------------------------------------------------------------ -/
/- C3: no unset optional field in the argument vector                  -/
/- ------------------------------------------------------------------ -/

/-- C3 counterexample: the release, chart and namespace inputs are
emitted unconditionally, so with the release input absent the install
vector (and the uninstall vector) contains a null entry instead of
omitting the field. -/
theorem c3_counterexample :
    cfgNoRelease.release = none ∧
    (helm_install_params "/w" cfgNoRelease).contains none = true ∧
    (helm_uninstall_params cfgNoRelease).contains none = true := by
  decide

/-- A truthy value is not `None`. -/
theorem isSome_of_truthy {a : PyStr} (h : truthy a = true) : a.isSome = true := by
  cases a with
  | none => simp [truthy] at h
  | some s => rfl

/-- Every element of the values-file `-f` pairs is a string. -/
theorem all_isSome_valuesFileArgs (specs : Specs) :
    (valuesFileArgs specs).all Option.isSome = true := by
  simp only [valuesFileArgs, List.all_eq_true]
  intro a ha
  rw [List.mem_flatMap] at ha
  obtain ⟨vf, _, hmem⟩ := ha
  simp only [List.mem_cons, List.not_mem_nil, or_false] at hmem
  rcases hmem with h | h <;> subst h <;> rfl

/-- Every element of the inline-values `-f` pair is a string. -/
theorem all_isSome_valuesTargetArgs (wrkdir : String) (specs : Specs) :
    (valuesTargetArgs wrkdir specs).all Option.isSome = true := by
  unfold valuesTargetArgs values_target
  by_cases h : truthy specs.values
  · simp [h]
  · simp at h
    simp [h]

/-- A conditionally appended lone flag never contributes a null entry. -/
theorem all_isSome_flag (cond : Prop) [Decidable cond] (x : String) :
    ((if cond then [some x] else ([] : List PyStr)).all Option.isSome) = true := by
  split
  · rfl
  · rfl

/-- A truthiness-guarded flag-and-value pair never contributes a null
entry: the guard guarantees the value is a string. -/
theorem all_isSome_opt_pair (x : String) (a : PyStr) :
    ((if truthy a then [some x, a] else ([] : List PyStr)).all Option.isSome) = true := by
  by_cases h : truthy a
  · simp [h, isSome_of_truthy h]
  · simp [h]

/-- The chart reference is a string whenever the chart input is set. -/
theorem isSome_load_chart (specs : Specs) (h : specs.chart ≠ none) :
    (load_chart specs).isSome = true := by
  unfold load_chart
  split
  · exact Option.isSome_iff_ne_none.mpr h
  · rfl

/-- C3 (amended): the conditional options (atomic, dry-run, values,
values-files, chart-version, timeout) are omitted from the vector
entirely when unset, so whenever the unconditionally-emitted fields
(release, chart, namespace) are set, no vector of any operation
contains a null entry; release, chart and namespace themselves,
however, are emitted even when unset (see the counterexample). -/
theorem c3_no_null_args (wrkdir : String) (specs : Specs)
    (h1 : specs.release ≠ none) (h2 : specs.chart ≠ none) (h3 : specs.namespc ≠ none) :
    ((helm_install_params wrkdir specs).all Option.isSome) = true ∧
    ((helm_upgrade_params wrkdir specs).all Option.isSome) = true ∧
    ((helm_template_params wrkdir specs).all Option.isSome) = true ∧
    ((helm_uninstall_params specs).all Option.isSome) = true := by
  have hr := Option.isSome_iff_ne_none.mpr h1
  have hn := Option.isSome_iff_ne_none.mpr h3
  have hc := isSome_load_chart specs h2
  have hv := all_isSome_valuesFileArgs specs
  have ht := all_isSome_valuesTargetArgs wrkdir specs
  refine ⟨?_, ?_, ?_, ?_⟩ <;>
    simp [helm_install_params, helm_upgrade_params, helm_template_params,
      helm_uninstall_params, List.all_append, hr, hn, hc, hv, ht,
      all_isSome_flag, all_isSome_opt_pair]

/-- C3 witness: with all mandatory fields set and every optional field
set, no vector contains a null entry. -/
theorem c3_witness :
    ((helm_install_params "/w" cfgFull).all Option.isSome) = true ∧
    ((helm_upgrade_params "/w" cfgFull).all Option.isSome) = true ∧
    ((helm_template_params "/w" cfgFull).all Option.isSome) = true ∧
    ((helm_uninstall_params cfgFull).all Option.isSome) = true :=
  c3_no_null_args "/w" cfgFull (by decide) (by decide) (by decide)

/- ------------------------------------------------------------------ -/
/- C1: credential file cleanup                                         -/
/- ------------------------------------------------------------------ -/

/-- When helm launches never raise, the repo registration step returns
normally. -/
theorem repo_run_snd (w : World) (specs : Specs)
    (hR : ∀ c p, w.helmRaises c p = false) : (repo_run w specs).2 = .ok () := by
  by_cases h : truthy specs.repo
  · simp [repo_run, run_helm, h, hR]
  · simp at h
    simp [repo_run, h]

/-- The repo registration trace consists only of spawns, so it does not
change whether any file exists. -/
theorem repo_run_foldl (w : World) (specs : Specs) (p : FsPath) (b : Bool) :
    ((repo_run w specs).1.foldl (effStep p) b) = b := by
  by_cases h : truthy specs.repo
  · by_cases hr1 : w.helmRaises "repo add --force-update"
        [pyOr specs.repo_name (some "charts"), specs.repo] = true
    · simp [repo_run, run_helm, h, hr1, effStep]
    · simp at hr1
      by_cases hr2 : w.helmRaises "repo update" [] = true
      · simp [repo_run, run_helm, h, hr1, hr2, effStep]
      · simp at hr2
        simp [repo_run, run_helm, h, hr1, hr2, effStep]
  · simp at h
    simp [repo_run, h]

/-- The inline-values trace touches only `values.yaml`, never the
credential file. -/
theorem load_values_run_foldl (wrkdir : String) (specs : Specs) (b : Bool) :
    ((load_values_run wrkdir specs).1.foldl
      (effStep (wrkdir, ".kube_config.yml")) b) = b := by
  by_cases h : truthy specs.values
  · simp [load_values_run, ymlload, h, effStep]
  · simp at h
    simp [load_values_run, h]

/-- When the helm run inside the credential scope returns normally, the
credential file is written and then unlinked; when decoding fails it is
never written: either way it does not exist after the wrapper's trace. -/
theorem wrap_helm_cleanup (w : World) (wrkdir cmd : String) (params : List PyStr)
    (hR : w.helmRaises cmd params = false) :
    ((wrap_helm_run w wrkdir cmd params).1.foldl
      (effStep (wrkdir, ".kube_config.yml")) false) = false := by
  unfold wrap_helm_run
  cases hb : b64decode w.kubecfgb64 with
  | error e => simp [effStep]
  | ok bs => simp [run_helm, hR, effStep]

/-- The install trace decomposes into the repo, values and wrapper
traces when helm launches never raise. -/
theorem helm_install_run_fst (w : World) (wrkdir : String) (specs : Specs)
    (hR : ∀ c p, w.helmRaises c p = false) :
    (helm_install_run w wrkdir specs).1 =
      (repo_run w specs).1 ++ (load_values_run wrkdir specs).1 ++
        (wrap_helm_run w wrkdir "install" (helm_install_params wrkdir specs)).1 := by
  have h1 := repo_run_snd w specs hR
  have h2 := load_values_run_snd wrkdir specs
  unfold helm_install_run
  simp only [h1, h2]

/-- The upgrade trace decomposes the same way. -/
theorem helm_upgrade_run_fst (w : World) (wrkdir : String) (specs : Specs)
    (hR : ∀ c p, w.helmRaises c p = false) :
    (helm_upgrade_run w wrkdir specs).1 =
      (repo_run w specs).1 ++ (load_values_run wrkdir specs).1 ++
        (wrap_helm_run w wrkdir "upgrade" (helm_upgrade_params wrkdir specs)).1 := by
  have h1 := repo_run_snd w specs hR
  have h2 := load_values_run_snd wrkdir specs
  unfold helm_upgrade_run
  simp only [h1, h2]

/-- C1 counterexample: `load_kubeconfig` has no try/finally around its
yield, so when the wrapped helm invocation raises (here: launching the
binary fails), the `unlink` after the yield never runs and the decoded
credential file is still on disk after the run — the claimed
"deleted on every exit path" fails. -/
theorem c1_counterexample :
    fileExistsAfter ("/t", ".kube_config.yml")
      (helm_uninstall_run wRaise "/t" cfgUninstall).1 = true := by
  decide

/-- C1 (amended): whenever the wrapped helm invocation returns normally
(for install, upgrade and uninstall alike), the decoded credential file
no longer exists after the run — it is unlinked when the scoped block
exits normally, and on the decode-failure path it is never written; if
the wrapped invocation raises, however, the cleanup is skipped and the
file remains (see the counterexample). -/
theorem c1_credential_cleanup (w : World) (wrkdir : String) (specs : Specs)
    (hR : ∀ c p, w.helmRaises c p = false) :
    fileExistsAfter (wrkdir, ".kube_config.yml") (helm_install_run w wrkdir specs).1 = false ∧
    fileExistsAfter (wrkdir, ".kube_config.yml") (helm_upgrade_run w wrkdir specs).1 = false ∧
    fileExistsAfter (wrkdir, ".kube_config.yml") (helm_uninstall_run w wrkdir specs).1 = false := by
  refine ⟨?_, ?_, ?_⟩
  · rw [fileExistsAfter, helm_install_run_fst w wrkdir specs hR]
    rw [List.foldl_append, List.foldl_append, repo_run_foldl, load_values_run_foldl]
    exact wrap_helm_cleanup w wrkdir "install" _ (hR _ _)
  · rw [fileExistsAfter, helm_upgrade_run_fst w wrkdir specs hR]
    rw [List.foldl_append, List.foldl_append, repo_run_foldl, load_values_run_foldl]
    exact wrap_helm_cleanup w wrkdir "upgrade" _ (hR _ _)
  · rw [fileExistsAfter]
    unfold helm_uninstall_run
    exact wrap_helm_cleanup w wrkdir "uninstall" _ (hR _ _)

/-- C1 witness: in a benign environment the credential file is gone
after each of the three credential-scoped operations. -/
theorem c1_witness :
    fileExistsAfter ("/t", ".kube_config.yml")
      (helm_install_run wBenign "/t" cfgUninstall).1 = false ∧
    fileExistsAfter ("/t", ".kube_config.yml")
      (helm_upgrade_run wBenign "/t" cfgUninstall).1 = false ∧
    fileExistsAfter ("/t", ".kube_config.yml")
      (helm_uninstall_run wBenign "/t" cfgUninstall).1 = false :=
  c1_credential_cleanup wBenign "/t" cfgUninstall (fun _ _ => rfl)

/- ------------------------------------------------------------------ -/
/- C10: leniency of the credential decoder                             -/
/- ------------------------------------------------------------------ -/

/-- Dropping the characters that non-strict `a2b_base64` skips anyway
does not change its result, from any decoder state. -/
theorem a2b_base64_filter (cs : List Char) :
    ∀ quadPos leftchar pads out,
      a2b_base64 (cs.filter b64keep) quadPos leftchar pads out =
        a2b_base64 cs quadPos leftchar pads out := by
  induction cs with
  | nil => intro q l p o; rfl
  | cons c rest ih =>
    intro q l p o
    by_cases hk : b64keep c = true
    · rw [List.filter_cons_of_pos hk]
      by_cases hc : c = '='
      · subst hc
        by_cases hq : 2 ≤ q ∧ 4 ≤ q + (p + 1)
        · simp only [a2b_base64, if_pos rfl, if_pos hq, if_true]
        · simp only [a2b_base64, if_pos rfl, if_neg hq, if_true]
          exact ih ..
      · have hv : ∃ v, b64Val c = some v := by
          simp [b64keep, hc] at hk
          exact Option.isSome_iff_exists.mp hk
        obtain ⟨v, hv⟩ := hv
        simp only [a2b_base64, if_neg hc, hv]
        split
        · exact ih ..
        · split
          · exact ih ..
          · split
            · exact ih ..
            · exact ih ..
    · rw [List.filter_cons_of_neg hk]
      have hc : ¬c = '=' := by
        intro h
        subst h
        simp [b64keep] at hk
      have hv : b64Val c = none := by
        cases h : b64Val c with
        | none => rfl
        | some v => simp [b64keep, h] at hk
      have hstep : a2b_base64 (c :: rest) q l p o = a2b_base64 rest q l p o := by
        simp only [a2b_base64, if_neg hc, hv]
      rw [hstep]
      exact ih ..

/-- C10 counterexample: a credential whose only defect is a character
outside the base64 alphabet (the non-ASCII `é`; with it removed the
string decodes cleanly) is NOT silently repaired: `b64decode` raises on
non-ASCII str input before any discarding, so the run prints the fixed
diagnostic and exits 1, contradicting the claim that every such
credential proceeds. -/
theorem c10_counterexample :
    b64decodeFails "aGk=é" = true ∧
    b64decode (b64clean "aGk=é") = Except.ok [104, 105] ∧
    (wrap_helm_run wBadCfg "/t" "uninstall" []).1 =
      [Eff.print "Bad kubeconfig", Eff.exit 1] := by
  refine ⟨by decide, by rfl, by rfl⟩

/-- C10 (amended): the decoder is lenient for ASCII input — decoding a
string all of whose characters are ASCII equals decoding the string
with every character outside the base64 alphabet discarded, so e.g. the
malformed `"aG!k="` still decodes to the bytes of `"hi"` and the run
proceeds; the diagnostic-and-exit-1 path runs exactly when `b64decode`
raises, which happens on padding errors (e.g. `"AAA"`) and on non-ASCII
characters — so not every malformed base64 input terminates the run. -/
theorem c10_lenient_decoder :
    (∀ s : String, (∀ c ∈ s.data, c.toNat < 128) →
      b64decode s = b64decode (b64clean s)) ∧
    (∀ (w : World) (wrkdir cmd : String) (params : List PyStr),
      ((wrap_helm_run w wrkdir cmd params).1.contains (Eff.print "Bad kubeconfig")) =
        b64decodeFails w.kubecfgb64) ∧
    b64decode "aG!k=" = Except.ok [104, 105] ∧
    b64decodeFails "AAA" = true := by
  refine ⟨?_, ?_, by rfl, by decide⟩
  · intro s hs
    have h1 : s.data.any (fun c => 128 ≤ c.toNat) = false := by
      simp only [List.any_eq_false, decide_eq_true_eq]
      intro c hc
      have := hs c hc
      omega
    have h2 : (b64clean s).data.any (fun c => 128 ≤ c.toNat) = false := by
      simp only [List.any_eq_false, decide_eq_true_eq] at h1 ⊢
      intro c hc
      exact h1 c (List.mem_of_mem_filter hc)
    unfold b64decode
    rw [h1, h2]
    simp only [Bool.false_eq_true, if_false]
    exact (a2b_base64_filter s.data 0 0 0 []).symm
  · intro w wrkdir cmd params
    unfold wrap_helm_run b64decodeFails
    cases hb : b64decode w.kubecfgb64 with
    | error e => simp
    | ok bs =>
        by_cases hr : w.helmRaises cmd params = true
        · simp [run_helm, hr]
        · simp at hr
          simp [run_helm, hr]

/-- C10 witness: an ASCII credential containing a space (outside the
alphabet) decodes the same as its cleaned form. -/
theorem c10_witness : b64decode "aG k=" = b64decode (b64clean "aG k=") :=
  c10_lenient_decoder.1 "aG k=" (by decide)

end HelmDeploy
